import Mathlib

/-!
Verification of the admission pipeline of the april_test_bot_one repository:
the visual-captcha challenge generator, the answer-verification state machine
with bounded retries and cooldown, the join-approval gateway with retries, and
the post-approval mute decision.  Python functions are embedded as pure Lean
functions; the ephemeral key-value store is explicit state, and the store and
platform operations a handler performs are recorded in a trace.
-/

namespace AprilBot

/-!
## String primitives

Embedding of the Python string operations used by the captcha answer check in
visual_captcha_handler.py line 331: submitted text is compared by
text.strip().upper() == str(captcha_answer).upper().  Strings are modelled as
lists of characters; upper is the ASCII case map (every generated answer is
ASCII, so the comparison is unaffected).
-/

/-- ASCII whitespace recognised by Python str.strip. -/
def isPySpace (c : Char) : Bool :=
  c == ' ' || c == '\t' || c == '\n' || c == '\r' || c == Char.ofNat 11 || c == Char.ofNat 12

/-- ASCII fragment of Python str.upper on one character. -/
def pyUpperChar (c : Char) : Char :=
  if 'a' ≤ c ∧ c ≤ 'z' then Char.ofNat (c.toNat - 32) else c

/-- Python str.upper, mapped over the characters. -/
def pyUpper (s : List Char) : List Char := s.map pyUpperChar

/-- Python str.strip: remove leading and trailing whitespace. -/
def pyStrip (s : List Char) : List Char :=
  ((s.dropWhile isPySpace).reverse.dropWhile isPySpace).reverse

/-!
## Challenge generator

Embedding of generate_visual_captcha (visual_captcha_logic.py lines 74-99).
The random draws made by the generator are the parameters of `CaptchaChoice`;
`CaptchaChoice.valid` records the bounds of each randint call, and
`CaptchaChoice.answer` is the answer string the generator stores.  Image
rendering is visual obfuscation only and carries no information used by
verification, so it is not modelled.
-/

/-- Decimal rendering of a natural number, as Python str on a nonnegative int. -/
def natStr (n : Nat) : List Char := (Nat.repr n).data

/-- The disambiguated alphabet of the text captcha
(string "ABCDEFGHJKLMNPQRSTUVWXYZ23456789" at line 80). -/
def captchaAlphabet : List Char :=
  ['A','B','C','D','E','F','G','H','J','K','L','M','N','P','Q','R','S','T',
   'U','V','W','X','Y','Z','2','3','4','5','6','7','8','9']

/-- One character drawn by random.choice from the alphabet. -/
def alphaChar (i : Fin 32) : Char := captchaAlphabet.getD i.val 'A'

/-- The random draws of one generator run: the captcha kind chosen at line 74
and the operands drawn for it. -/
inductive CaptchaChoice where
  | number (n : Nat)
  | text (i1 i2 i3 i4 : Fin 32)
  | mathAdd (a b : Nat)
  | mathSub (a b : Nat)
  | mathMul (a b : Nat)
deriving DecidableEq

/-- Bounds of the randint calls of generate_visual_captcha: number uses
randint(1, 50); addition and subtraction use randint(1, 20) and
randint(1, 10); multiplication redraws with randint(1, 10) and randint(1, 9). -/
def CaptchaChoice.valid : CaptchaChoice → Prop
  | .number n => 1 ≤ n ∧ n ≤ 50
  | .text _ _ _ _ => True
  | .mathAdd a b => 1 ≤ a ∧ a ≤ 20 ∧ 1 ≤ b ∧ b ≤ 10
  | .mathSub a b => 1 ≤ a ∧ a ≤ 20 ∧ 1 ≤ b ∧ b ≤ 10
  | .mathMul a b => 1 ≤ a ∧ a ≤ 10 ∧ 1 ≤ b ∧ b ≤ 9

instance : DecidablePred CaptchaChoice.valid := by
  intro c
  cases c <;> simp only [CaptchaChoice.valid] <;> infer_instance

/-- The expected answer produced by generate_visual_captcha: str of the number,
the four drawn alphabet characters, or str of the arithmetic result, with
subtraction swapping the operands when a < b so the result is nonnegative. -/
def CaptchaChoice.answer : CaptchaChoice → List Char
  | .number n => natStr n
  | .text i1 i2 i3 i4 => [alphaChar i1, alphaChar i2, alphaChar i3, alphaChar i4]
  | .mathAdd a b => natStr (a + b)
  | .mathSub a b => if a < b then natStr (b - a) else natStr (a - b)
  | .mathMul a b => natStr (a * b)

/-!
## Answer verification
-/

/-- Embedding of the comparison at visual_captcha_handler.py lines 331-332:
(message.text or "").strip().upper() == str(captcha_answer).upper(). -/
def verifyAnswer (submitted expected : List Char) : Bool :=
  pyUpper (pyStrip submitted) == pyUpper expected

/-- Modelled from the spec: the normalization the spec describes for both
sides of the comparison, whitespace trimmed then case-folded. -/
def normalizeText (s : List Char) : List Char := pyUpper (pyStrip s)

/-- Characters that can occur in a generated answer: decimal digits and the
captcha alphabet. -/
def isAnswerChar (c : Char) : Bool := c.isDigit || captchaAlphabet.contains c

theorem natStr_answerChar : ∀ n : Nat, n < 101 → (natStr n).all isAnswerChar = true := by
  decide

theorem alphaChar_answerChar (i : Fin 32) : isAnswerChar (alphaChar i) = true := by
  revert i; decide

theorem answerChar_not_space {c : Char} (h : isAnswerChar c = true) :
    isPySpace c = false := by
  by_contra hsp
  have hsp' : isPySpace c = true := by
    cases hEq : isPySpace c
    · exact absurd hEq hsp
    · rfl
  have := hsp'
  unfold isPySpace at this
  rcases Bool.or_eq_true_iff.mp this with h5 | h6
  · rcases Bool.or_eq_true_iff.mp h5 with h4 | h6
    · rcases Bool.or_eq_true_iff.mp h4 with h3 | h5
      · rcases Bool.or_eq_true_iff.mp h3 with h2 | h4
        · rcases Bool.or_eq_true_iff.mp h2 with h1 | h3
          · have : c = ' ' := by exact eq_of_beq h1
            subst this; exact absurd h (by decide)
          · have : c = '\t' := by exact eq_of_beq h3
            subst this; exact absurd h (by decide)
        · have : c = '\n' := by exact eq_of_beq h4
          subst this; exact absurd h (by decide)
      · have : c = '\r' := by exact eq_of_beq h5
        subst this; exact absurd h (by decide)
    · have : c = Char.ofNat 11 := by exact eq_of_beq h6
      subst this; exact absurd h (by decide)
  · have : c = Char.ofNat 12 := by exact eq_of_beq h6
    subst this; exact absurd h (by decide)

theorem dropWhile_eq_self_of_all {p : Char → Bool} {l : List Char}
    (h : ∀ c ∈ l, p c = false) : l.dropWhile p = l := by
  cases l with
  | nil => rfl
  | cons a l =>
      have ha : p a = false := h a (List.mem_cons_self a l)
      simp [List.dropWhile, ha]

theorem pyStrip_eq_self {s : List Char} (h : ∀ c ∈ s, isPySpace c = false) :
    pyStrip s = s := by
  unfold pyStrip
  rw [dropWhile_eq_self_of_all h]
  rw [dropWhile_eq_self_of_all (by intro c hc; exact h c (List.mem_reverse.mp hc))]
  exact List.reverse_reverse s

theorem answer_chars (ch : CaptchaChoice) (h : ch.valid) :
    ∀ c ∈ ch.answer, isAnswerChar c = true := by
  cases ch with
  | number n =>
      obtain ⟨_, h2⟩ := h
      have := natStr_answerChar n (by omega)
      intro c hc
      exact List.all_eq_true.mp this c hc
  | text i1 i2 i3 i4 =>
      intro c hc
      simp only [CaptchaChoice.answer, List.mem_cons, List.not_mem_nil, or_false] at hc
      rcases hc with rfl | rfl | rfl | rfl <;> exact alphaChar_answerChar _
  | mathAdd a b =>
      obtain ⟨_, h2, _, h4⟩ := h
      have := natStr_answerChar (a + b) (by omega)
      intro c hc
      exact List.all_eq_true.mp this c hc
  | mathSub a b =>
      obtain ⟨_, h2, _, h4⟩ := h
      intro c hc
      simp only [CaptchaChoice.answer] at hc
      by_cases hab : a < b
      · rw [if_pos hab] at hc
        exact List.all_eq_true.mp (natStr_answerChar (b - a) (by omega)) c hc
      · rw [if_neg hab] at hc
        exact List.all_eq_true.mp (natStr_answerChar (a - b) (by omega)) c hc
  | mathMul a b =>
      obtain ⟨_, h2, _, h4⟩ := h
      have hm : a * b ≤ 90 := le_trans (Nat.mul_le_mul h2 h4) (by norm_num)
      intro c hc
      exact List.all_eq_true.mp (natStr_answerChar (a * b) (by omega)) c hc

theorem answer_strip (ch : CaptchaChoice) (h : ch.valid) :
    pyStrip ch.answer = ch.answer :=
  pyStrip_eq_self (fun c hc => answerChar_not_space (answer_chars ch h c hc))

/-- C1: for every generated challenge, verification succeeds iff the
normalized submitted text equals the normalized expected answer; submitting
the exact generated answer always verifies. -/
theorem verify_iff_normalized_eq (ch : CaptchaChoice) (h : ch.valid)
    (submitted : List Char) :
    (verifyAnswer submitted ch.answer = true ↔
       normalizeText submitted = normalizeText ch.answer)
    ∧ verifyAnswer ch.answer ch.answer = true := by
  have hs := answer_strip ch h
  constructor
  · unfold verifyAnswer normalizeText
    rw [hs]
    exact ⟨fun hb => eq_of_beq hb, fun he => by rw [he]; exact beq_self_eq_true _⟩
  · unfold verifyAnswer
    rw [hs]
    exact beq_self_eq_true _

/-- Witness for C1 at a concrete challenge and submission. -/
theorem verify_iff_normalized_eq_witness :
    (verifyAnswer [' ', '7'] (CaptchaChoice.number 7).answer = true ↔
       normalizeText [' ', '7'] = normalizeText (CaptchaChoice.number 7).answer)
    ∧ verifyAnswer (CaptchaChoice.number 7).answer (CaptchaChoice.number 7).answer = true :=
  verify_iff_normalized_eq (CaptchaChoice.number 7) (by decide) [' ', '7']

/-!
## Per-user session store state

The handlers keep per-user state in two places: the aiogram FSM context
(update_data and get_data calls) and the Redis keys written by
visual_captcha_logic.py.  The keys touched for one user are
captcha:UID (save_captcha_data, TTL 300), rate_limit:UID (set_rate_limit),
captcha_passed:UID:CHAT (TTL 3600) and join_request:UID:GROUP.  The group
reference carried by the deep link is one of three forms the code
distinguishes by string tests: a private_CHATID tag, a literal numeric chat
id, or a public username.  Message-id bookkeeping (user_messages keys, FSM
message_ids), the group_link cache and the relational database writes are
user-interface plumbing with no effect on the admission decisions and are
not modelled.
-/

/-- The group reference forms dispatched on at visual_captcha_handler.py
lines 342-356: a private_CHATID string, a numeric chat id string, or a
public username. -/
inductive GroupRef where
  | priv (chatId : Int)
  | numericId (chatId : Int)
  | username (name : String)
deriving DecidableEq

/-- The parsed value of a captcha:UID record, the structured form of the
answer:group:attempts string of save_captcha_data (visual_captcha_logic.py
line 314). -/
structure CaptchaData where
  captcha_answer : List Char
  group_name : GroupRef
  attempts : Nat
deriving DecidableEq

/-- The FSM context data of one user: the keys written by update_data in the
captcha handlers.  A missing key reads as none; attempts reads with default
0 (data.get at handler line 295). -/
structure FsmData where
  captcha_answer : Option (List Char)
  group_name : Option GroupRef
  attempts : Nat
deriving DecidableEq

/-- The per-user slice of the ephemeral store plus the FSM context.
rateLimit holds the remaining TTL of the rate_limit:UID key;
captchaPassed maps a chat id to the stored captcha_passed:UID:CHAT value;
joinRequest maps a group reference to the stored chat id. -/
structure UserState where
  fsm : Option FsmData
  captcha : Option CaptchaData
  rateLimit : Option Nat
  joinRequest : GroupRef → Option Int
  captchaPassed : Int → Option String

/-- Store keys a handler run can touch for this user. -/
inductive RKey where
  | captchaKey
  | rateLimitKey
  | joinRequestKey (g : GroupRef)
  | captchaPassedKey (chatId : Int)
  | fsmKey
deriving DecidableEq

/-- Typed payload of a store write. -/
inductive StoreVal where
  | captchaVal (d : CaptchaData)
  | rlVal (seconds : Nat)
  | passedVal (s : String)
  | fsmVal (d : FsmData)
deriving DecidableEq

/-- One store operation, as recorded in a handler trace.  A write carries the
TTL passed to setex (none for the FSM context, which has no TTL). -/
inductive StoreOp where
  | readOp (k : RKey)
  | existsOp (k : RKey)
  | ttlOp (k : RKey)
  | writeOp (k : RKey) (ttl : Option Nat) (v : StoreVal)
  | delOp (k : RKey)
deriving DecidableEq

/-- Python truthiness of an optional string value read from the store:
None and the empty string are falsy. -/
def pyTruthy (v : Option String) : Bool :=
  match v with
  | none => false
  | some s => !s.isEmpty

/-- FSM data when no key has been written: get_data defaults. -/
def emptyFsm : FsmData := ⟨none, none, 0⟩

/-!
## Answer handler

Embedding of process_captcha_answer (visual_captcha_handler.py lines
260-586).  Inputs besides the state: the submitted text, the answer of the
freshly generated replacement captcha (the retry path regenerates), and the
gateway result for the approval call.  The result records the outcome (which
user-visible message path was taken), the post state, and the trace of store
operations on the modelled keys.
-/

/-- Result of the join-approval gateway as consumed by the handler
(approve_chat_join_request returns success, message, group_link). -/
structure GatewayAnswer where
  success : Bool
  groupLink : Option String
deriving DecidableEq

/-- Outcome of one run of the answer handler.  verified carries, when a chat
id was resolved, that id and the gateway success flag. -/
inductive AnswerOutcome where
  | rateLimited (timeLeft : Nat)
  | expiredSession
  | staleLockout
  | verified (approval : Option (Int × Bool))
  | lockout
  | retryNewChallenge (attemptsLeft : Nat)
deriving DecidableEq

/-- Result of one handler run: outcome, post state, store-operation trace. -/
structure StepResult where
  outcome : AnswerOutcome
  post : UserState
  trace : List StoreOp

/-- The effective session the answer handler works with (handler lines
292-314): the FSM values when the FSM holds a nonempty answer and a group,
otherwise the captcha:UID record; the flag records whether the Redis record
was consulted. -/
def sessionView (st : UserState) : Option (List Char × GroupRef × Nat) × Bool :=
  let f := st.fsm.getD emptyFsm
  match f.captcha_answer, f.group_name with
  | some a, some g =>
      if a.isEmpty then
        (st.captcha.map (fun cd => (cd.captcha_answer, cd.group_name, cd.attempts)), true)
      else
        (some (a, g, f.attempts), false)
  | _, _ =>
      (st.captcha.map (fun cd => (cd.captcha_answer, cd.group_name, cd.attempts)), true)

/-- Chat id resolution on the success path (handler lines 341-358): a
private or numeric group reference carries the id; a public username is
looked up in the join_request keys. -/
def resolveChatId (st : UserState) (g : GroupRef) : Option Int × List StoreOp :=
  match g with
  | .priv cid => (some cid, [])
  | .numericId cid => (some cid, [])
  | .username _ =>
      match st.joinRequest g with
      | some cid => (some cid, [.existsOp (.joinRequestKey g), .readOp (.joinRequestKey g)])
      | none => (none, [.existsOp (.joinRequestKey g)])

/-- Embedding of process_captcha_answer.  Control flow, in source order:
the rate-limit gate (lines 284-289), the FSM read with Redis fallback and
the expired-session reply (292-314), the stale attempt-count check
(317-328), the answer comparison (331-332), the success path with approval
and the captcha_passed marker write (334-454), and the wrong-answer path
with increment, lockout at three attempts, or challenge regeneration
(456-573). -/
def processCaptchaAnswer (st : UserState) (text fresh : List Char)
    (gw : GatewayAnswer) : StepResult :=
  match st.rateLimit with
  | some t =>
      ⟨.rateLimited t, st, [.existsOp .rateLimitKey, .ttlOp .rateLimitKey]⟩
  | none =>
    let tr0 : List StoreOp :=
      [.existsOp .rateLimitKey, .readOp .fsmKey]
        ++ (if (sessionView st).2 then [StoreOp.readOp .captchaKey] else [])
    match (sessionView st).1 with
    | none =>
        ⟨.expiredSession, { st with fsm := none }, tr0 ++ [.delOp .fsmKey]⟩
    | some (ans, g, attempts) =>
      if attempts ≥ 3 then
        ⟨.staleLockout,
         { st with captcha := none, rateLimit := some 60, fsm := none },
         tr0 ++ [.delOp .captchaKey, .writeOp .rateLimitKey (some 60) (.rlVal 60),
                 .ttlOp .rateLimitKey, .delOp .fsmKey]⟩
      else if verifyAnswer text ans then
        let r := resolveChatId st g
        let trS := tr0 ++ [StoreOp.delOp .captchaKey] ++ r.2
        match r.1 with
        | some cid =>
            if gw.success then
              ⟨.verified (some (cid, true)),
               { st with captcha := none, fsm := none,
                         captchaPassed :=
                           fun c => if c = cid then some "1" else st.captchaPassed c },
               trS ++ [.writeOp (.captchaPassedKey cid) (some 3600) (.passedVal "1"),
                       .delOp .fsmKey]⟩
            else
              ⟨.verified (some (cid, false)),
               { st with captcha := none, fsm := none },
               trS ++ [.delOp .fsmKey]⟩
        | none =>
            ⟨.verified none, { st with captcha := none, fsm := none },
             trS ++ [.delOp .fsmKey]⟩
      else
        let att := attempts + 1
        let f := st.fsm.getD emptyFsm
        let fsm1 : FsmData := { f with attempts := att }
        let trW := tr0 ++ [StoreOp.writeOp .fsmKey none (.fsmVal fsm1)]
        if att ≥ 3 then
          ⟨.lockout,
           { st with fsm := none, captcha := none, rateLimit := some 60 },
           trW ++ [.delOp .captchaKey, .writeOp .rateLimitKey (some 60) (.rlVal 60),
                   .delOp .fsmKey]⟩
        else
          let fsm2 : FsmData := { fsm1 with captcha_answer := some fresh }
          ⟨.retryNewChallenge (3 - att),
           { st with fsm := some fsm2, captcha := some ⟨fresh, g, att⟩ },
           trW ++ [.writeOp .fsmKey none (.fsmVal fsm2),
                   .writeOp .captchaKey (some 300) (.captchaVal ⟨fresh, g, att⟩)]⟩

/-!
## Deep-link handler

Embedding of process_visual_captcha_deep_link (visual_captcha_handler.py
lines 138-256): with a valid deep_link argument the handler generates a
captcha, writes the FSM data with attempt count zero and saves the
captcha:UID record with TTL 300.  The handler performs no rate-limit check.
-/

/-- Outcome of one run of the deep-link handler. -/
inductive DeepLinkOutcome where
  | invalidLink
  | challengeIssued
deriving DecidableEq

/-- Result of one deep-link handler run. -/
structure DeepStepResult where
  outcome : DeepLinkOutcome
  post : UserState
  trace : List StoreOp

/-- Embedding of process_visual_captcha_deep_link.  args is the group
reference extracted from a deep_link argument, none when the argument is
missing or malformed (lines 167-170); fresh is the generated answer. -/
def processVisualCaptchaDeepLink (st : UserState) (args : Option GroupRef)
    (fresh : List Char) : DeepStepResult :=
  match args with
  | none => ⟨.invalidLink, st, []⟩
  | some g =>
      ⟨.challengeIssued,
       { st with fsm := some ⟨some fresh, some g, 0⟩,
                 captcha := some ⟨fresh, g, 0⟩ },
       [.writeOp .fsmKey none (.fsmVal ⟨some fresh, some g, 0⟩),
        .writeOp .captchaKey (some 300) (.captchaVal ⟨fresh, g, 0⟩)]⟩

/-!
## Post-approval mute decision

Embedding of the chat_member handlers of
new_member_requested_to_join_mute_logic.py.  The store slice they read is the
group:CHAT:mute_new_members flag and the captcha_passed:UID:CHAT markers.
-/

/-- Member statuses distinguished by the handlers. -/
inductive MemberStatus where
  | left
  | kicked
  | member
  | restricted
  | administrator
  | creator
deriving DecidableEq

/-- One member-state-changed signal. -/
structure MemberEvent where
  oldStatus : MemberStatus
  newStatus : MemberStatus
  userId : Nat
  chatId : Int

/-- The store slice read by the moderation decision. -/
structure ModStore where
  muteNewMembers : Int → Option String
  captchaPassed : Nat → Int → Option String

/-- External calls the decision can make: the restriction (with its duration
in days) and the policy-violation tracking write. -/
inductive MuteAction where
  | restrictCall (chatId : Int) (userId : Nat) (untilDays : Nat)
  | trackViolation (userId : Nat) (chatId : Int)
deriving DecidableEq

/-- Result of one delivery: the decision, the external calls made, and the
store as left behind. -/
structure MuteResult where
  restricted : Bool
  calls : List MuteAction
  post : ModStore

/-- The restriction window: timedelta(days=366 * 10) at lines 231 and 588. -/
def muteDurationDays : Nat := 366 * 10

/-- Embedding of mute_manually_approved_member_logic (lines 541-597): the
status guard, the mute_new_members flag read (proceed only on the value "1"),
the captcha_passed marker read (skip when truthy), then the restriction
call.  The function only reads the store, so the post store is the input. -/
def muteManuallyApprovedMemberLogic (s : ModStore) (e : MemberEvent) : MuteResult :=
  if (e.oldStatus = .left ∨ e.oldStatus = .kicked) ∧ e.newStatus = .member then
    if pyTruthy (s.muteNewMembers e.chatId) = false
        ∨ s.muteNewMembers e.chatId ≠ some "1" then ⟨false, [], s⟩
    else if pyTruthy (s.captchaPassed e.userId e.chatId) then ⟨false, [], s⟩
    else ⟨true, [.restrictCall e.chatId e.userId muteDurationDays], s⟩
  else ⟨false, [], s⟩

/-- Embedding of get_mute_new_members_status (lines 21-73): the Redis flag
when present, else the database value (default false).  The database
fallback refreshes the Redis cache with the same value. -/
def getMuteNewMembersStatus (s : ModStore) (db : Int → Option Bool) (chatId : Int) :
    Bool × ModStore :=
  match s.muteNewMembers chatId with
  | some v => (v = "1", s)
  | none =>
      let b := (db chatId).getD false
      (b, { s with muteNewMembers :=
              fun c => if c = chatId then some (if b then "1" else "0")
                       else s.muteNewMembers c })

/-- Embedding of mute_manually_approved_member (lines 178-260): the same
decision with the database-backed flag read, the redundant inner status
recheck of line 203, and the policy-violation tracking call after the
restriction. -/
def muteManuallyApprovedMember (s : ModStore) (db : Int → Option Bool)
    (e : MemberEvent) : MuteResult :=
  if (e.oldStatus = .left ∨ e.oldStatus = .kicked) ∧ e.newStatus = .member then
    if (getMuteNewMembersStatus s db e.chatId).1 = false then
      ⟨false, [], (getMuteNewMembersStatus s db e.chatId).2⟩
    else if ¬ (e.oldStatus = .left ∨ e.oldStatus = .kicked) then
      ⟨false, [], (getMuteNewMembersStatus s db e.chatId).2⟩
    else if pyTruthy ((getMuteNewMembersStatus s db e.chatId).2.captchaPassed
                        e.userId e.chatId) then
      ⟨false, [], (getMuteNewMembersStatus s db e.chatId).2⟩
    else ⟨true,
          [.restrictCall e.chatId e.userId muteDurationDays,
           .trackViolation e.userId e.chatId],
          (getMuteNewMembersStatus s db e.chatId).2⟩
  else ⟨false, [], s⟩

/-- The approval-marker write of the success path (handler line 366), on the
global store slice. -/
def writeApprovalMarker (s : ModStore) (userId : Nat) (chatId : Int) : ModStore :=
  { s with captchaPassed :=
      fun u c => if u = userId ∧ c = chatId then some "1" else s.captchaPassed u c }

/-!
## External admission gateway

Embedding of approve_chat_join_request (visual_captcha_logic.py lines
364-453).  The platform is modelled by the response each approval attempt
would get, whether the two get_chat calls and the two invite creations
succeed, the username of the chat, and the link the platform would mint for
an invite.  Sleeps are recorded in tenths of a second (the code sleeps 5.0,
0.5 and whole-second backoffs).
-/

/-- What one bot.approve_chat_join_request attempt returns: success, a
rate-limit error (a 429 with an optional retry_after hint parsed from the
error text), or any other error. -/
inductive ApiResp where
  | ok
  | rateLimited (retryAfterHint : Option Nat)
  | otherError
deriving DecidableEq

/-- External platform calls made by the gateway, sleeps in tenths of a
second.  createInvite records the creates_join_request argument and the
member_limit argument (none when the parameter is not passed). -/
inductive ExtCall where
  | sleep (tenths : Nat)
  | getChat
  | approveCall (attempt : Nat)
  | createInvite (createsJoinRequest : Bool) (memberLimit : Option Nat)
deriving DecidableEq

/-- Backoff before a retry (lines 397-410): the parsed retry_after plus the
5-second margin when the hint is present, else 20 + attempt * 10 seconds. -/
def retrySleepTenths (hint : Option Nat) (attempt : Nat) : Nat :=
  match hint with
  | some ra => 10 * (ra + 5)
  | none => 10 * (20 + attempt * 10)

/-- The retry loop (lines 388-413), fuel-indexed by the remaining range
entries: success breaks, a 429 before the last attempt sleeps and retries,
anything else raises (surfacing as failure to the outer handler). -/
def approveLoopGo (responses : Nat → ApiResp) (maxRetries : Nat) :
    Nat → Nat → Bool × List ExtCall
  | _, 0 => (false, [])
  | attempt, fuel + 1 =>
      match responses attempt with
      | .ok => (true, [.approveCall attempt])
      | .rateLimited hint =>
          if attempt < maxRetries - 1 then
            let rest := approveLoopGo responses maxRetries (attempt + 1) fuel
            (rest.1,
             .approveCall attempt :: .sleep (retrySleepTenths hint attempt) :: rest.2)
          else (false, [.approveCall attempt])
      | .otherError => (false, [.approveCall attempt])

/-- The message strings the gateway result carries. -/
inductive GwMessage where
  | successMsg
  | failureMsg
deriving DecidableEq

/-- The uniform result shape of the gateway: success flag, message, optional
entry link. -/
structure GatewayResult where
  success : Bool
  message : GwMessage
  groupLink : Option String
deriving DecidableEq

/-- Gateway result together with the platform calls made. -/
structure GatewayRun where
  result : GatewayResult
  calls : List ExtCall

/-- Canonical public entry link. -/
def tMeLink (u : String) : String := "https://t.me/" ++ u

/-- The fallback of the outer except block (lines 437-451): sleep half a
second, re-fetch the chat, then the canonical handle link for a public chat
or a fresh invite with creates_join_request disabled for a private one.
Failures leave the link unset. -/
def fallbackCalls (username : Option String) (fbGetChatOk fbInviteOk : Bool)
    (inviteLink : String) : Option String × List ExtCall :=
  if fbGetChatOk = false then (none, [.sleep 5, .getChat])
  else
    match username with
    | some u => (some (tMeLink u), [.sleep 5, .getChat])
    | none =>
        if fbInviteOk then
          (some inviteLink, [.sleep 5, .getChat, .createInvite false none])
        else (none, [.sleep 5, .getChat, .createInvite false none])

/-- Embedding of approve_chat_join_request: initial 5-second sleep and
get_chat, the retry loop, on success the entry link (public username or a
private invite with creates_join_request disabled), and on any raise the
outer except block setting the failure message and attempting the fallback
link.  Every path returns the uniform result record. -/
def approveChatJoinRequest (responses : Nat → ApiResp) (username : Option String)
    (mainGetChatOk mainInviteOk fbGetChatOk fbInviteOk : Bool)
    (inviteLink : String) : GatewayRun :=
  if mainGetChatOk = false then
    let fb := fallbackCalls username fbGetChatOk fbInviteOk inviteLink
    ⟨⟨false, .failureMsg, fb.1⟩, [.sleep 50, .getChat] ++ fb.2⟩
  else
    let loop := approveLoopGo responses 3 0 3
    let pre : List ExtCall := [.sleep 50, .getChat]
    if loop.1 = true then
      match username with
      | some u => ⟨⟨true, .successMsg, some (tMeLink u)⟩, pre ++ loop.2⟩
      | none =>
          if mainInviteOk then
            ⟨⟨true, .successMsg, some inviteLink⟩,
             pre ++ loop.2 ++ [.sleep 50, .createInvite false none]⟩
          else
            let fb := fallbackCalls username fbGetChatOk fbInviteOk inviteLink
            ⟨⟨true, .failureMsg, fb.1⟩,
             pre ++ loop.2 ++ [.sleep 50, .createInvite false none] ++ fb.2⟩
    else
      let fb := fallbackCalls username fbGetChatOk fbInviteOk inviteLink
      ⟨⟨false, .failureMsg, fb.1⟩, pre ++ loop.2 ++ fb.2⟩

/-- Total sleep recorded in a call list, in tenths of a second. -/
def totalSleepTenths (calls : List ExtCall) : Nat :=
  (calls.map (fun c => match c with | .sleep n => n | _ => 0)).sum

/-- Whether a call is an approval attempt. -/
def isApproveCall (c : ExtCall) : Bool :=
  match c with
  | .approveCall _ => true
  | _ => false

/-- Number of approval attempts in a call list. -/
def approveCallCount (calls : List ExtCall) : Nat := calls.countP isApproveCall

/-!
## Concrete states used by witnesses and counterexamples
-/

/-- Empty join_request table. -/
def noJoinRequests : GroupRef → Option Int := fun _ => none

/-- Empty approval-marker table. -/
def noMarkers : Int → Option String := fun _ => none

/-- A user currently under cooldown, with no live session. -/
def cooldownState : UserState := ⟨none, none, some 42, noJoinRequests, noMarkers⟩

/-- A user with a live session (answer 7 for a private group), no cooldown. -/
def liveSessionState : UserState :=
  ⟨some ⟨some ['7'], some (.priv 9), 0⟩, some ⟨['7'], .priv 9, 0⟩, none,
   noJoinRequests, noMarkers⟩

/-!
## C10: a rate-limited answer submission changes nothing
-/

/-- C10: when the cooldown key exists, the answer handler replies with the
remaining wait time and returns at once: the post state equals the input
state (session record, cooldown key and approval markers untouched) and the
trace holds only the two cooldown reads, so no session data is read or
compared and nothing is written. -/
theorem rate_limited_answer_is_frame (st : UserState) (t : Nat)
    (text fresh : List Char) (gw : GatewayAnswer) (h : st.rateLimit = some t) :
    processCaptchaAnswer st text fresh gw =
      ⟨.rateLimited t, st, [.existsOp .rateLimitKey, .ttlOp .rateLimitKey]⟩ := by
  unfold processCaptchaAnswer
  rw [h]

/-- Witness for C10 at a concrete cooldown state. -/
theorem rate_limited_answer_is_frame_witness :
    processCaptchaAnswer cooldownState ['X'] ['7'] ⟨false, none⟩ =
      ⟨.rateLimited 42, cooldownState, [.existsOp .rateLimitKey, .ttlOp .rateLimitKey]⟩ :=
  rate_limited_answer_is_frame cooldownState 42 ['X'] ['7'] ⟨false, none⟩ rfl

/-!
## C5: the deep-link handler does not consult the cooldown marker
-/

/-- C5 counterexample: with the cooldown marker present, a deep-link start
still issues a challenge and creates a fresh session, contradicting the
claim that no new challenge or session is created and the user is told the
remaining cooldown time. -/
theorem deep_link_ignores_cooldown_cex :
    cooldownState.rateLimit = some 42
    ∧ (processVisualCaptchaDeepLink cooldownState (some (.priv 77)) ['7']).outcome
        = .challengeIssued
    ∧ (processVisualCaptchaDeepLink cooldownState (some (.priv 77)) ['7']).post.captcha
        = some ⟨['7'], .priv 77, 0⟩ :=
  ⟨rfl, rfl, rfl⟩

/-- C5 amended: the cooldown marker is enforced only at answer submission.
A deep-link start during cooldown still creates a fresh challenge and
session with attempt count zero, while any answer submitted during cooldown
is answered with the remaining time and leaves all state unchanged. -/
theorem cooldown_enforced_at_answer_only (st : UserState) (t : Nat)
    (g : GroupRef) (fresh : List Char) (h : st.rateLimit = some t) :
    ((processVisualCaptchaDeepLink st (some g) fresh).outcome = .challengeIssued
     ∧ (processVisualCaptchaDeepLink st (some g) fresh).post.captcha = some ⟨fresh, g, 0⟩
     ∧ (processVisualCaptchaDeepLink st (some g) fresh).post.fsm = some ⟨some fresh, some g, 0⟩)
    ∧ (∀ text fr gw, processCaptchaAnswer st text fr gw =
        ⟨.rateLimited t, st, [.existsOp .rateLimitKey, .ttlOp .rateLimitKey]⟩) := by
  refine ⟨⟨rfl, rfl, rfl⟩, ?_⟩
  intro text fr gw
  unfold processCaptchaAnswer
  rw [h]

/-- Witness for the amended C5 at a concrete cooldown state. -/
theorem cooldown_enforced_at_answer_only_witness :
    ((processVisualCaptchaDeepLink cooldownState (some (.priv 77)) ['7']).outcome
        = .challengeIssued
     ∧ (processVisualCaptchaDeepLink cooldownState (some (.priv 77)) ['7']).post.captcha
        = some ⟨['7'], .priv 77, 0⟩
     ∧ (processVisualCaptchaDeepLink cooldownState (some (.priv 77)) ['7']).post.fsm
        = some ⟨some ['7'], some (.priv 77), 0⟩)
    ∧ (∀ text fr gw, processCaptchaAnswer cooldownState text fr gw =
        ⟨.rateLimited 42, cooldownState, [.existsOp .rateLimitKey, .ttlOp .rateLimitKey]⟩) :=
  cooldown_enforced_at_answer_only cooldownState 42 (.priv 77) ['7'] rfl

/-!
## C3: the restriction fires iff all four conditions hold
-/

/-- C3: the moderation decision restricts exactly when the mute flag of the
community is enabled, the previous status is left or kicked, the new status
is member, and no approval marker is present; when it fires the restriction
duration is the fixed 3660-day window.  The same shape holds for the
database-backed variant with its enabled flag. -/
theorem getStatus_captchaPassed (s : ModStore) (db : Int → Option Bool) (c : Int) :
    (getMuteNewMembersStatus s db c).2.captchaPassed = s.captchaPassed := by
  unfold getMuteNewMembersStatus
  cases s.muteNewMembers c <;> rfl

theorem enabledCond_of_eq {v : Option String} (h : v = some "1") :
    ¬ (pyTruthy v = false ∨ v ≠ some "1") := by
  subst h
  rintro (h1 | h2)
  · exact absurd h1 (by decide)
  · exact h2 rfl

/-- C3: the moderation decision restricts exactly when the mute flag of the
community is enabled, the previous status is left or kicked, the new status
is member, and no approval marker is present; when it fires the restriction
duration is the fixed 3660-day window.  The same shape holds for the
database-backed variant with its enabled flag. -/
theorem mute_restricts_iff_four_conditions (s : ModStore) (db : Int → Option Bool)
    (e : MemberEvent) :
    ((muteManuallyApprovedMemberLogic s e).restricted = true ↔
      (s.muteNewMembers e.chatId = some "1"
       ∧ (e.oldStatus = .left ∨ e.oldStatus = .kicked)
       ∧ e.newStatus = .member
       ∧ pyTruthy (s.captchaPassed e.userId e.chatId) = false))
    ∧ ((muteManuallyApprovedMemberLogic s e).restricted = true →
        (muteManuallyApprovedMemberLogic s e).calls =
          [.restrictCall e.chatId e.userId muteDurationDays])
    ∧ muteDurationDays = 3660
    ∧ ((muteManuallyApprovedMember s db e).restricted = true ↔
      ((getMuteNewMembersStatus s db e.chatId).1 = true
       ∧ (e.oldStatus = .left ∨ e.oldStatus = .kicked)
       ∧ e.newStatus = .member
       ∧ pyTruthy (s.captchaPassed e.userId e.chatId) = false)) := by
  refine ⟨?_, ?_, rfl, ?_⟩
  · unfold muteManuallyApprovedMemberLogic
    by_cases hst : (e.oldStatus = .left ∨ e.oldStatus = .kicked) ∧ e.newStatus = .member
    · rw [if_pos hst]
      by_cases hm : s.muteNewMembers e.chatId = some "1"
      · rw [if_neg (enabledCond_of_eq hm)]
        by_cases hcp : pyTruthy (s.captchaPassed e.userId e.chatId) = true
        · rw [if_pos hcp]
          simp only [Bool.false_eq_true, false_iff]
          rintro ⟨_, _, _, hmk⟩
          rw [hmk] at hcp
          exact absurd hcp (by decide)
        · rw [if_neg hcp]
          simp only [true_iff]
          exact ⟨hm, hst.1, hst.2, by
            cases hEq : pyTruthy (s.captchaPassed e.userId e.chatId)
            · rfl
            · exact absurd hEq hcp⟩
      · rw [if_pos (Or.inr hm)]
        simp only [Bool.false_eq_true, false_iff]
        rintro ⟨hm2, _, _, _⟩
        exact hm hm2
    · rw [if_neg hst]
      simp only [Bool.false_eq_true, false_iff]
      rintro ⟨_, ho, hn, _⟩
      exact hst ⟨ho, hn⟩
  · unfold muteManuallyApprovedMemberLogic
    split_ifs <;> intro h <;> first | rfl | exact absurd h (by decide)
  · unfold muteManuallyApprovedMember
    by_cases hst : (e.oldStatus = .left ∨ e.oldStatus = .kicked) ∧ e.newStatus = .member
    · rw [if_pos hst]
      by_cases hb : (getMuteNewMembersStatus s db e.chatId).1 = false
      · rw [if_pos hb]
        simp only [Bool.false_eq_true, false_iff]
        rintro ⟨hb2, _, _, _⟩
        rw [hb2] at hb
        exact absurd hb (by decide)
      · rw [if_neg hb, if_neg (by rintro h; exact h hst.1)]
        rw [getStatus_captchaPassed]
        by_cases hcp : pyTruthy (s.captchaPassed e.userId e.chatId) = true
        · rw [if_pos hcp]
          simp only [Bool.false_eq_true, false_iff]
          rintro ⟨_, _, _, hmk⟩
          rw [hmk] at hcp
          exact absurd hcp (by decide)
        · rw [if_neg hcp]
          simp only [true_iff]
          refine ⟨?_, hst.1, hst.2, ?_⟩
          · cases hEq : (getMuteNewMembersStatus s db e.chatId).1
            · exact absurd hEq hb
            · rfl
          · cases hEq : pyTruthy (s.captchaPassed e.userId e.chatId)
            · rfl
            · exact absurd hEq hcp
    · rw [if_neg hst]
      simp only [Bool.false_eq_true, false_iff]
      rintro ⟨_, ho, hn, _⟩
      exact hst ⟨ho, hn⟩

/-- Witness for C3: a concrete event that fires the restriction with the
3660-day window, shown by applying the characterisation. -/
theorem mute_restricts_iff_four_conditions_witness :
    (muteManuallyApprovedMemberLogic ⟨fun _ => some "1", fun _ _ => none⟩
        ⟨.left, .member, 4, 5⟩).restricted = true
    ∧ (muteManuallyApprovedMemberLogic ⟨fun _ => some "1", fun _ _ => none⟩
        ⟨.left, .member, 4, 5⟩).calls = [.restrictCall 5 4 muteDurationDays] := by
  have h := mute_restricts_iff_four_conditions ⟨fun _ => some "1", fun _ _ => none⟩
    (fun _ => none) ⟨.left, .member, 4, 5⟩
  have hr : (muteManuallyApprovedMemberLogic ⟨fun _ => some "1", fun _ _ => none⟩
      ⟨.left, .member, 4, 5⟩).restricted = true :=
    h.1.mpr ⟨rfl, Or.inl rfl, rfl, rfl⟩
  exact ⟨hr, h.2.1 hr⟩

/-!
## C4: the decision is a pure function of current store state
-/

/-- C4: the moderation decision only reads the store, so a duplicate
delivery of the same signal sees the same store and returns the same
decision; with the mute flag enabled and no approval marker both deliveries
decide restrict, and any delivery after the approval marker write decides
not to restrict. -/
theorem mute_decision_idempotent (s : ModStore) (e : MemberEvent) :
    ((muteManuallyApprovedMemberLogic s e).post = s)
    ∧ (muteManuallyApprovedMemberLogic (muteManuallyApprovedMemberLogic s e).post e
        = muteManuallyApprovedMemberLogic s e)
    ∧ ((e.oldStatus = .left ∨ e.oldStatus = .kicked) → e.newStatus = .member →
       s.muteNewMembers e.chatId = some "1" →
       s.captchaPassed e.userId e.chatId = none →
       (muteManuallyApprovedMemberLogic s e).restricted = true
        ∧ (muteManuallyApprovedMemberLogic
             (muteManuallyApprovedMemberLogic s e).post e).restricted = true)
    ∧ (muteManuallyApprovedMemberLogic (writeApprovalMarker s e.userId e.chatId) e).restricted
        = false := by
  have hpost : (muteManuallyApprovedMemberLogic s e).post = s := by
    unfold muteManuallyApprovedMemberLogic
    split_ifs <;> rfl
  refine ⟨hpost, by rw [hpost], ?_, ?_⟩
  · intro ho hn hm hmk
    have hr : (muteManuallyApprovedMemberLogic s e).restricted = true := by
      unfold muteManuallyApprovedMemberLogic
      rw [if_pos ⟨ho, hn⟩, if_neg (by rw [hm]; exact enabledCond_of_eq rfl),
          if_neg (by rw [hmk]; decide)]
    exact ⟨hr, by rw [hpost]; exact hr⟩
  · by_cases hst : (e.oldStatus = .left ∨ e.oldStatus = .kicked) ∧ e.newStatus = .member
    · unfold muteManuallyApprovedMemberLogic
      rw [if_pos hst]
      have hmk : (writeApprovalMarker s e.userId e.chatId).captchaPassed e.userId e.chatId
          = some "1" := by
        unfold writeApprovalMarker
        simp
      by_cases hen : pyTruthy ((writeApprovalMarker s e.userId e.chatId).muteNewMembers e.chatId)
            = false
          ∨ (writeApprovalMarker s e.userId e.chatId).muteNewMembers e.chatId ≠ some "1"
      · rw [if_pos hen]
      · rw [if_neg hen, if_pos (by rw [hmk]; decide)]
    · unfold muteManuallyApprovedMemberLogic
      rw [if_neg hst]

/-- Witness for C4: both deliveries restrict with no marker, and the
delivery after the marker write does not. -/
theorem mute_decision_idempotent_witness :
    (muteManuallyApprovedMemberLogic ⟨fun _ => some "1", fun _ _ => none⟩
        ⟨.kicked, .member, 4, 5⟩).restricted = true
    ∧ (muteManuallyApprovedMemberLogic
         (muteManuallyApprovedMemberLogic ⟨fun _ => some "1", fun _ _ => none⟩
           ⟨.kicked, .member, 4, 5⟩).post
         ⟨.kicked, .member, 4, 5⟩).restricted = true
    ∧ (muteManuallyApprovedMemberLogic
         (writeApprovalMarker ⟨fun _ => some "1", fun _ _ => none⟩ 4 5)
         ⟨.kicked, .member, 4, 5⟩).restricted = false := by
  have h := mute_decision_idempotent ⟨fun _ => some "1", fun _ _ => none⟩
    ⟨.kicked, .member, 4, 5⟩
  have hb := h.2.2.1 (Or.inr rfl) rfl rfl rfl
  exact ⟨hb.1, hb.2, h.2.2.2⟩

/-!
## Step lemmas for the answer handler on a live session
-/

theorem step_wrong_retry (a fresh : List Char) (ha : a.isEmpty = false)
    (g : GroupRef) (cap : Option CaptchaData) (jr : GroupRef → Option Int)
    (cp : Int → Option String) (t : List Char) (gw : GatewayAnswer) (n : Nat)
    (hw : verifyAnswer t a = false) (hn : n + 1 < 3) :
    processCaptchaAnswer ⟨some ⟨some a, some g, n⟩, cap, none, jr, cp⟩ t fresh gw =
      ⟨.retryNewChallenge (3 - (n + 1)),
       ⟨some ⟨some fresh, some g, n + 1⟩, some ⟨fresh, g, n + 1⟩, none, jr, cp⟩,
       [.existsOp .rateLimitKey, .readOp .fsmKey,
        .writeOp .fsmKey none (.fsmVal ⟨some a, some g, n + 1⟩),
        .writeOp .fsmKey none (.fsmVal ⟨some fresh, some g, n + 1⟩),
        .writeOp .captchaKey (some 300) (.captchaVal ⟨fresh, g, n + 1⟩)]⟩ := by
  have h3 : ¬ n ≥ 3 := by omega
  have h4 : ¬ n + 1 ≥ 3 := by omega
  simp [processCaptchaAnswer, sessionView, emptyFsm, ha, hw, h3, h4]

theorem step_wrong_lock (a fresh : List Char) (ha : a.isEmpty = false)
    (g : GroupRef) (cap : Option CaptchaData) (jr : GroupRef → Option Int)
    (cp : Int → Option String) (t : List Char) (gw : GatewayAnswer)
    (hw : verifyAnswer t a = false) :
    processCaptchaAnswer ⟨some ⟨some a, some g, 2⟩, cap, none, jr, cp⟩ t fresh gw =
      ⟨.lockout, ⟨none, none, some 60, jr, cp⟩,
       [.existsOp .rateLimitKey, .readOp .fsmKey,
        .writeOp .fsmKey none (.fsmVal ⟨some a, some g, 3⟩),
        .delOp .captchaKey, .writeOp .rateLimitKey (some 60) (.rlVal 60),
        .delOp .fsmKey]⟩ := by
  simp [processCaptchaAnswer, sessionView, emptyFsm, ha, hw]

/-!
## C2: three consecutive wrong answers always lock the user out
-/

/-- C2: from a session whose attempt count is 2, a third wrong answer
deletes the session record and FSM data, writes the cooldown key with TTL
60 and value 60, emits the lockout outcome and writes no new challenge; and
from a fresh session, three consecutive wrong answers end in the same
locked state. -/
theorem third_wrong_answer_locks (a fresh1 fresh2 fresh3 : List Char)
    (t0 t1 t2 t3 : List Char) (g : GroupRef) (cap : Option CaptchaData)
    (jr : GroupRef → Option Int) (cp : Int → Option String)
    (gw1 gw2 gw3 : GatewayAnswer)
    (ha : a.isEmpty = false) (hf1 : fresh1.isEmpty = false)
    (hf2 : fresh2.isEmpty = false)
    (h0 : verifyAnswer t0 a = false)
    (h1 : verifyAnswer t1 a = false)
    (h2 : verifyAnswer t2 fresh1 = false)
    (h3 : verifyAnswer t3 fresh2 = false) :
    ((processCaptchaAnswer ⟨some ⟨some a, some g, 2⟩, cap, none, jr, cp⟩
        t0 fresh3 gw3).outcome = .lockout
     ∧ (processCaptchaAnswer ⟨some ⟨some a, some g, 2⟩, cap, none, jr, cp⟩
        t0 fresh3 gw3).post.captcha = none
     ∧ (processCaptchaAnswer ⟨some ⟨some a, some g, 2⟩, cap, none, jr, cp⟩
        t0 fresh3 gw3).post.fsm = none
     ∧ (processCaptchaAnswer ⟨some ⟨some a, some g, 2⟩, cap, none, jr, cp⟩
        t0 fresh3 gw3).post.rateLimit = some 60
     ∧ StoreOp.writeOp .rateLimitKey (some 60) (.rlVal 60)
         ∈ (processCaptchaAnswer ⟨some ⟨some a, some g, 2⟩, cap, none, jr, cp⟩
              t0 fresh3 gw3).trace
     ∧ (∀ ttl v, StoreOp.writeOp .captchaKey ttl v
         ∉ (processCaptchaAnswer ⟨some ⟨some a, some g, 2⟩, cap, none, jr, cp⟩
              t0 fresh3 gw3).trace))
    ∧ ((processCaptchaAnswer
          (processCaptchaAnswer
            (processCaptchaAnswer ⟨some ⟨some a, some g, 0⟩, cap, none, jr, cp⟩
              t1 fresh1 gw1).post
            t2 fresh2 gw2).post
          t3 fresh3 gw3).outcome = .lockout
       ∧ (processCaptchaAnswer
            (processCaptchaAnswer
              (processCaptchaAnswer ⟨some ⟨some a, some g, 0⟩, cap, none, jr, cp⟩
                t1 fresh1 gw1).post
              t2 fresh2 gw2).post
            t3 fresh3 gw3).post.rateLimit = some 60
       ∧ (processCaptchaAnswer
            (processCaptchaAnswer
              (processCaptchaAnswer ⟨some ⟨some a, some g, 0⟩, cap, none, jr, cp⟩
                t1 fresh1 gw1).post
              t2 fresh2 gw2).post
            t3 fresh3 gw3).post.captcha = none) := by
  constructor
  · rw [step_wrong_lock a fresh3 ha g cap jr cp t0 gw3 h0]
    refine ⟨rfl, rfl, rfl, rfl, by simp, ?_⟩
    intro ttl v hmem
    simp only [List.mem_cons, List.not_mem_nil, or_false] at hmem
    rcases hmem with h | h | h | h | h | h <;> exact absurd h (by simp)
  · have p1 : (processCaptchaAnswer ⟨some ⟨some a, some g, 0⟩, cap, none, jr, cp⟩
        t1 fresh1 gw1).post
        = ⟨some ⟨some fresh1, some g, 1⟩, some ⟨fresh1, g, 1⟩, none, jr, cp⟩ := by
      rw [step_wrong_retry a fresh1 ha g cap jr cp t1 gw1 0 h1 (by omega)]
    rw [p1]
    have p2 : (processCaptchaAnswer
          ⟨some ⟨some fresh1, some g, 1⟩, some ⟨fresh1, g, 1⟩, none, jr, cp⟩
          t2 fresh2 gw2).post
        = ⟨some ⟨some fresh2, some g, 2⟩, some ⟨fresh2, g, 2⟩, none, jr, cp⟩ := by
      rw [step_wrong_retry fresh1 fresh2 hf1 g (some ⟨fresh1, g, 1⟩) jr cp t2 gw2 1 h2
            (by omega)]
    rw [p2]
    rw [step_wrong_lock fresh2 fresh3 hf2 g (some ⟨fresh2, g, 2⟩) jr cp t3 gw3 h3]
    exact ⟨rfl, rfl, rfl⟩

/-- Witness for C2 at a concrete session and concrete wrong answers. -/
theorem third_wrong_answer_locks_witness :
    (processCaptchaAnswer ⟨some ⟨some ['7'], some (.priv 5), 2⟩, none, none,
        noJoinRequests, noMarkers⟩ ['X'] ['4'] ⟨false, none⟩).outcome = .lockout
    ∧ (processCaptchaAnswer
         (processCaptchaAnswer
           (processCaptchaAnswer ⟨some ⟨some ['7'], some (.priv 5), 0⟩, none, none,
              noJoinRequests, noMarkers⟩ ['X'] ['8'] ⟨false, none⟩).post
           ['Y'] ['9'] ⟨false, none⟩).post
         ['Z'] ['4'] ⟨false, none⟩).outcome = .lockout := by
  have h := third_wrong_answer_locks ['7'] ['8'] ['9'] ['4'] ['X'] ['X'] ['Y'] ['Z']
    (.priv 5) none noJoinRequests noMarkers ⟨false, none⟩ ⟨false, none⟩ ⟨false, none⟩
    rfl rfl rfl (by decide) (by decide) (by decide) (by decide)
  exact ⟨h.1.1, h.2.1⟩

/-!
## C9: the attempt counter of a session
-/

/-- The session as the handler sees it. -/
def effSession (st : UserState) : Option (List Char × GroupRef × Nat) :=
  (sessionView st).1

/-- The attempt counter of the session as the handler sees it. -/
def effAttempts (st : UserState) : Option Nat :=
  (effSession st).map (fun x => x.2.2)

theorem sessionView_none_captcha {st : UserState}
    (h : (sessionView st).1 = none) : st.captcha = none := by
  unfold sessionView at h
  rcases hf : st.fsm with _ | ⟨fa, fg, fn⟩ <;> rw [hf] at h
  · simpa [emptyFsm] using h
  · rcases fa with _ | a <;> rcases fg with _ | g
    · simpa using h
    · simpa using h
    · simpa using h
    · cases hE : a.isEmpty
      · simp only [Option.getD] at h
        rw [if_neg (by rw [hE]; exact Bool.false_ne_true)] at h
        exact absurd h (by simp)
      · simp only [Option.getD] at h
        rw [if_pos hE] at h
        simpa using h

theorem effAttempts_both (oa : Option (List Char)) (og : Option GroupRef)
    (k : Nat) (cd : CaptchaData) (hcd : cd.attempts = k)
    (rl : Option Nat) (jr : GroupRef → Option Int) (cp : Int → Option String) :
    effAttempts ⟨some ⟨oa, og, k⟩, some cd, rl, jr, cp⟩ = some k := by
  unfold effAttempts effSession sessionView
  rcases oa with _ | a <;> rcases og with _ | g
  · simp [emptyFsm, hcd]
  · simp [emptyFsm, hcd]
  · simp [emptyFsm, hcd]
  · cases hE : a.isEmpty
    · simp only [Option.getD]
      rw [if_neg (by rw [hE]; exact Bool.false_ne_true)]
      simp
    · simp only [Option.getD]
      rw [if_pos hE]
      simp [hcd]

theorem effAttempts_cleared (rl : Option Nat) (jr : GroupRef → Option Int)
    (cp : Int → Option String) :
    effAttempts ⟨none, none, rl, jr, cp⟩ = none := rfl

theorem effAttempts_none_of (s : UserState) (hf : s.fsm = none)
    (hc : s.captcha = none) : effAttempts s = none := by
  unfold effAttempts effSession sessionView
  rw [hf, hc]
  rfl

theorem effAttempts_some_of (s : UserState) (oa : Option (List Char))
    (og : Option GroupRef) (k : Nat) (cd : CaptchaData)
    (hf : s.fsm = some ⟨oa, og, k⟩) (hc : s.captcha = some cd)
    (hcd : cd.attempts = k) : effAttempts s = some k := by
  unfold effAttempts effSession sessionView
  rw [hf, hc]
  rcases oa with _ | a <;> rcases og with _ | g
  · simp [emptyFsm, hcd]
  · simp [emptyFsm, hcd]
  · simp [emptyFsm, hcd]
  · cases hE : a.isEmpty
    · simp only [Option.getD]
      rw [if_neg (by rw [hE]; exact Bool.false_ne_true)]
      simp
    · simp only [Option.getD]
      rw [if_pos hE]
      simp [hcd]

/-- Shape lemma for one run of the answer handler: the state is unchanged,
or the session is destroyed, or the session survives with the attempt
counter of the view incremented by one (this last only below the limit). -/
theorem step_cases (st : UserState) (text fresh : List Char) (gw : GatewayAnswer) :
    ((processCaptchaAnswer st text fresh gw).post = st)
    ∨ ((processCaptchaAnswer st text fresh gw).post.fsm = none
        ∧ (processCaptchaAnswer st text fresh gw).post.captcha = none)
    ∨ (∃ ans g att, (sessionView st).1 = some (ans, g, att) ∧ att + 1 < 3
        ∧ (processCaptchaAnswer st text fresh gw).post.fsm
            = some ⟨some fresh, (st.fsm.getD emptyFsm).group_name, att + 1⟩
        ∧ (processCaptchaAnswer st text fresh gw).post.captcha
            = some ⟨fresh, g, att + 1⟩) := by
  obtain ⟨fsmF, capF, rlF, jrF, cpF⟩ := st
  unfold processCaptchaAnswer
  rcases rlF with _ | t
  · dsimp only
    rcases hsv : (sessionView ⟨fsmF, capF, none, jrF, cpF⟩).1 with _ | ⟨ans, g, att⟩
    · dsimp only
      refine Or.inr (Or.inl ⟨rfl, ?_⟩)
      exact sessionView_none_captcha hsv
    · dsimp only
      by_cases h3 : att ≥ 3
      · rw [if_pos h3]
        exact Or.inr (Or.inl ⟨rfl, rfl⟩)
      · rw [if_neg h3]
        by_cases hv : verifyAnswer text ans = true
        · rw [if_pos hv]
          rcases (resolveChatId ⟨fsmF, capF, none, jrF, cpF⟩ g).1 with _ | cid
          · exact Or.inr (Or.inl ⟨rfl, rfl⟩)
          · dsimp only
            by_cases hgw : gw.success = true
            · rw [if_pos hgw]
              exact Or.inr (Or.inl ⟨rfl, rfl⟩)
            · rw [if_neg hgw]
              exact Or.inr (Or.inl ⟨rfl, rfl⟩)
        · rw [if_neg hv]
          by_cases h4 : att + 1 ≥ 3
          · rw [if_pos h4]
            exact Or.inr (Or.inl ⟨rfl, rfl⟩)
          · rw [if_neg h4]
            exact Or.inr (Or.inr ⟨ans, g, att, rfl, by omega, rfl, rfl⟩)
  · exact Or.inl rfl

/-- C9: within the lifetime of one session the attempt counter the handler
sees never decreases, each run leaves it equal or incremented by one, it
never exceeds 3, it is never written back to 0 by the answer handler, and a
brand-new session created by the deep-link handler starts at 0. -/
theorem attempt_counter_invariants (st : UserState) (text fresh : List Char)
    (gw : GatewayAnswer) :
    (∀ n2, effAttempts (processCaptchaAnswer st text fresh gw).post = some n2 →
       ∃ n1, effAttempts st = some n1 ∧ (n2 = n1 ∨ n2 = n1 + 1))
    ∧ (∀ n1 n2, effAttempts st = some n1 → n1 ≤ 3 →
         effAttempts (processCaptchaAnswer st text fresh gw).post = some n2 →
         n2 ≤ 3)
    ∧ (effAttempts (processCaptchaAnswer st text fresh gw).post = some 0 →
         effAttempts st = some 0)
    ∧ (∀ g, effAttempts (processVisualCaptchaDeepLink st (some g) fresh).post = some 0) := by
  have hdeep : ∀ g, effAttempts (processVisualCaptchaDeepLink st (some g) fresh).post
      = some 0 := by
    intro g
    obtain ⟨fsmF, capF, rlF, jrF, cpF⟩ := st
    exact effAttempts_both (some fresh) (some g) 0 ⟨fresh, g, 0⟩ rfl rlF jrF cpF
  rcases step_cases st text fresh gw with hsame | ⟨hf, hc⟩ | ⟨ans, g, att, hsv, hlt, hf, hc⟩
  · rw [hsame]
    refine ⟨fun n2 h => ⟨n2, h, Or.inl rfl⟩, fun n1 n2 h1 hle h2 => ?_, fun h => h, hdeep⟩
    rw [h1] at h2
    obtain rfl := Option.some.inj h2
    exact hle
  · have hnone : effAttempts (processCaptchaAnswer st text fresh gw).post = none :=
      effAttempts_none_of _ hf hc
    refine ⟨fun n2 h => absurd h (by rw [hnone]; simp),
            fun n1 n2 h1 hle h2 => absurd h2 (by rw [hnone]; simp),
            fun h => absurd h (by rw [hnone]; simp), hdeep⟩
  · have hatt : effAttempts (processCaptchaAnswer st text fresh gw).post
        = some (att + 1) :=
      effAttempts_some_of _ _ _ _ _ hf hc rfl
    have hpre : effAttempts st = some att := by
      unfold effAttempts effSession
      rw [hsv]
      rfl
    refine ⟨fun n2 h => ?_, fun n1 n2 h1 hle h2 => ?_, fun h => ?_, hdeep⟩
    · rw [hatt] at h
      exact ⟨att, hpre, Or.inr (Option.some.inj h).symm⟩
    · rw [hatt] at h2
      rw [hpre] at h1
      have e2 := Option.some.inj h2
      have e1 := Option.some.inj h1
      omega
    · rw [hatt] at h
      have := Option.some.inj h
      omega

/-!
## C6: approval markers are written only by the success path
-/

theorem mute_logic_post_eq (ms : ModStore) (e : MemberEvent) :
    (muteManuallyApprovedMemberLogic ms e).post = ms := by
  unfold muteManuallyApprovedMemberLogic
  split_ifs <;> rfl

/-- C6: in the answer handler, every write to an approval-marker key is the
success-path setex with TTL 3600 and value 1 and happens exactly when the
gateway reported success for the resolved chat; a successful run writes the
marker exactly once; no handler run deletes an approval-marker key; the
deep-link handler never writes or deletes approval-marker keys; and the
moderation decision leaves the store untouched. -/
theorem marker_write_not_in_condRead (cb : Bool) (cid : Int) (ttl2 : Option Nat)
    (v2 : StoreVal) :
    StoreOp.writeOp (.captchaPassedKey cid) ttl2 v2
      ∉ (if cb = true then [StoreOp.readOp RKey.captchaKey] else []) := by
  cases cb <;> simp

theorem marker_del_not_in_condRead (cb : Bool) (cid : Int) :
    StoreOp.delOp (.captchaPassedKey cid)
      ∉ (if cb = true then [StoreOp.readOp RKey.captchaKey] else []) := by
  cases cb <;> simp

theorem marker_count_condRead (cb : Bool) (cid : Int) (ttl2 : Option Nat)
    (v2 : StoreVal) :
    (if cb = true then [StoreOp.readOp RKey.captchaKey] else []).count
      (StoreOp.writeOp (.captchaPassedKey cid) ttl2 v2) = 0 := by
  cases cb <;> simp

/-- C6: in the answer handler, every write to an approval-marker key is the
success-path setex with TTL 3600 and value 1 and happens exactly when the
gateway reported success for the resolved chat; a successful run writes the
marker exactly once; no handler run deletes an approval-marker key; the
deep-link handler never writes or deletes approval-marker keys; and the
moderation decision leaves the store untouched. -/
theorem approval_marker_write_discipline (st : UserState) (text fresh : List Char)
    (gw : GatewayAnswer) (cid : Int) :
    (∀ ttl2 v2, StoreOp.writeOp (.captchaPassedKey cid) ttl2 v2
          ∈ (processCaptchaAnswer st text fresh gw).trace →
        ttl2 = some 3600 ∧ v2 = .passedVal "1" ∧ gw.success = true
          ∧ (processCaptchaAnswer st text fresh gw).outcome = .verified (some (cid, true)))
    ∧ ((processCaptchaAnswer st text fresh gw).outcome = .verified (some (cid, true)) →
        StoreOp.writeOp (.captchaPassedKey cid) (some 3600) (.passedVal "1")
            ∈ (processCaptchaAnswer st text fresh gw).trace
        ∧ (processCaptchaAnswer st text fresh gw).trace.count
            (StoreOp.writeOp (.captchaPassedKey cid) (some 3600) (.passedVal "1")) = 1)
    ∧ (StoreOp.delOp (.captchaPassedKey cid) ∉ (processCaptchaAnswer st text fresh gw).trace)
    ∧ (∀ args ttl2 v2, StoreOp.writeOp (.captchaPassedKey cid) ttl2 v2
          ∉ (processVisualCaptchaDeepLink st args fresh).trace
        ∧ StoreOp.delOp (.captchaPassedKey cid)
          ∉ (processVisualCaptchaDeepLink st args fresh).trace)
    ∧ (∀ ms e, (muteManuallyApprovedMemberLogic ms e).post = ms) := by
  have hdeep : ∀ args ttl2 v2, StoreOp.writeOp (.captchaPassedKey cid) ttl2 v2
        ∉ (processVisualCaptchaDeepLink st args fresh).trace
      ∧ StoreOp.delOp (.captchaPassedKey cid)
        ∉ (processVisualCaptchaDeepLink st args fresh).trace := by
    intro args ttl2 v2
    rcases args with _ | g <;> simp [processVisualCaptchaDeepLink]
  have hmain :
      (∀ ttl2 v2, StoreOp.writeOp (.captchaPassedKey cid) ttl2 v2
            ∈ (processCaptchaAnswer st text fresh gw).trace →
          ttl2 = some 3600 ∧ v2 = .passedVal "1" ∧ gw.success = true
            ∧ (processCaptchaAnswer st text fresh gw).outcome
                = .verified (some (cid, true)))
      ∧ ((processCaptchaAnswer st text fresh gw).outcome = .verified (some (cid, true)) →
          StoreOp.writeOp (.captchaPassedKey cid) (some 3600) (.passedVal "1")
              ∈ (processCaptchaAnswer st text fresh gw).trace
          ∧ (processCaptchaAnswer st text fresh gw).trace.count
              (StoreOp.writeOp (.captchaPassedKey cid) (some 3600) (.passedVal "1")) = 1)
      ∧ (StoreOp.delOp (.captchaPassedKey cid)
          ∉ (processCaptchaAnswer st text fresh gw).trace) := by
    obtain ⟨fsmF, capF, rlF, jrF, cpF⟩ := st
    unfold processCaptchaAnswer
    rcases rlF with _ | t
    · dsimp only
      rcases hsv : (sessionView ⟨fsmF, capF, none, jrF, cpF⟩).1 with _ | ⟨ans, g, att⟩
      · dsimp only
        exact ⟨fun ttl2 v2 hmem =>
                 absurd hmem (by simp [marker_write_not_in_condRead]),
               fun hout => absurd hout (by simp),
               by simp [marker_del_not_in_condRead]⟩
      · dsimp only
        by_cases h3 : att ≥ 3
        · rw [if_pos h3]
          exact ⟨fun ttl2 v2 hmem =>
                   absurd hmem (by simp [marker_write_not_in_condRead]),
                 fun hout => absurd hout (by simp),
                 by simp [marker_del_not_in_condRead]⟩
        · rw [if_neg h3]
          by_cases hv : verifyAnswer text ans = true
          · rw [if_pos hv]
            rcases g with cid2 | cid2 | name
            · dsimp only [resolveChatId]
              by_cases hgw : gw.success = true
              · rw [if_pos hgw]
                refine ⟨fun ttl2 v2 hmem => ?_, fun hout => ?_,
                        by simp [marker_del_not_in_condRead]⟩
                · simp [marker_write_not_in_condRead] at hmem
                  obtain ⟨rfl, rfl, rfl⟩ := hmem
                  exact ⟨rfl, rfl, hgw, rfl⟩
                · have hc : cid2 = cid := by simpa using hout
                  subst hc
                  exact ⟨by simp,
                         by simp [List.count_append, marker_count_condRead]⟩
              · rw [if_neg hgw]
                exact ⟨fun ttl2 v2 hmem =>
                         absurd hmem (by simp [marker_write_not_in_condRead]),
                       fun hout => absurd hout (by simp),
                       by simp [marker_del_not_in_condRead]⟩
            · dsimp only [resolveChatId]
              by_cases hgw : gw.success = true
              · rw [if_pos hgw]
                refine ⟨fun ttl2 v2 hmem => ?_, fun hout => ?_,
                        by simp [marker_del_not_in_condRead]⟩
                · simp [marker_write_not_in_condRead] at hmem
                  obtain ⟨rfl, rfl, rfl⟩ := hmem
                  exact ⟨rfl, rfl, hgw, rfl⟩
                · have hc : cid2 = cid := by simpa using hout
                  subst hc
                  exact ⟨by simp,
                         by simp [List.count_append, marker_count_condRead]⟩
              · rw [if_neg hgw]
                exact ⟨fun ttl2 v2 hmem =>
                         absurd hmem (by simp [marker_write_not_in_condRead]),
                       fun hout => absurd hout (by simp),
                       by simp [marker_del_not_in_condRead]⟩
            · dsimp only [resolveChatId]
              rcases hjr : jrF (GroupRef.username name) with _ | cid2
              · dsimp only
                exact ⟨fun ttl2 v2 hmem =>
                         absurd hmem (by simp [marker_write_not_in_condRead]),
                       fun hout => absurd hout (by simp),
                       by simp [marker_del_not_in_condRead]⟩
              · dsimp only
                by_cases hgw : gw.success = true
                · rw [if_pos hgw]
                  refine ⟨fun ttl2 v2 hmem => ?_, fun hout => ?_,
                          by simp [marker_del_not_in_condRead]⟩
                  · simp [marker_write_not_in_condRead] at hmem
                    obtain ⟨rfl, rfl, rfl⟩ := hmem
                    exact ⟨rfl, rfl, hgw, rfl⟩
                  · have hc : cid2 = cid := by simpa using hout
                    subst hc
                    exact ⟨by simp,
                           by simp [List.count_append, marker_count_condRead]⟩
                · rw [if_neg hgw]
                  exact ⟨fun ttl2 v2 hmem =>
                           absurd hmem (by simp [marker_write_not_in_condRead]),
                         fun hout => absurd hout (by simp),
                         by simp [marker_del_not_in_condRead]⟩
          · rw [if_neg hv]
            by_cases h4 : att + 1 ≥ 3
            · rw [if_pos h4]
              exact ⟨fun ttl2 v2 hmem =>
                       absurd hmem (by simp [marker_write_not_in_condRead]),
                     fun hout => absurd hout (by simp),
                     by simp [marker_del_not_in_condRead]⟩
            · rw [if_neg h4]
              exact ⟨fun ttl2 v2 hmem =>
                       absurd hmem (by simp [marker_write_not_in_condRead]),
                     fun hout => absurd hout (by simp),
                     by simp [marker_del_not_in_condRead]⟩
    · exact ⟨fun ttl2 v2 hmem => absurd hmem (by simp),
             fun hout => absurd hout (by simp), by simp⟩
  exact ⟨hmain.1, hmain.2.1, hmain.2.2, hdeep, fun ms e => mute_logic_post_eq ms e⟩

/-- Witness for C6 at a concrete successful run: the marker write with TTL
3600 is in the trace exactly once. -/
theorem approval_marker_write_discipline_witness :
    StoreOp.writeOp (.captchaPassedKey 9) (some 3600) (.passedVal "1")
        ∈ (processCaptchaAnswer liveSessionState ['7'] ['8'] ⟨true, none⟩).trace
    ∧ (processCaptchaAnswer liveSessionState ['7'] ['8'] ⟨true, none⟩).trace.count
        (StoreOp.writeOp (.captchaPassedKey 9) (some 3600) (.passedVal "1")) = 1 :=
  (approval_marker_write_discipline liveSessionState ['7'] ['8'] ⟨true, none⟩ 9).2.1
    (by decide)

/-- Witness for C9 at a concrete session and submission. -/
theorem attempt_counter_invariants_witness :
    (∃ n1, effAttempts liveSessionState = some n1 ∧ (1 = n1 ∨ 1 = n1 + 1))
    ∧ effAttempts (processVisualCaptchaDeepLink liveSessionState
        (some (.priv 9)) ['8']).post = some 0 := by
  have h := attempt_counter_invariants liveSessionState ['X'] ['8'] ⟨false, none⟩
  exact ⟨h.1 1 (by decide), h.2.2.2 (.priv 9)⟩

/-!
## C7: retry policy of the gateway
-/

theorem approveLoopGo_ok (r : Nat → ApiResp) (mx attempt fuel : Nat)
    (h : r attempt = .ok) :
    approveLoopGo r mx attempt (fuel + 1) = (true, [.approveCall attempt]) := by
  unfold approveLoopGo
  rw [h]

theorem approveLoopGo_rl_retry (r : Nat → ApiResp) (mx attempt fuel : Nat)
    (ra : Option Nat) (h : r attempt = .rateLimited ra) (hlt : attempt < mx - 1) :
    approveLoopGo r mx attempt (fuel + 1) =
      ((approveLoopGo r mx (attempt + 1) fuel).1,
       .approveCall attempt :: .sleep (retrySleepTenths ra attempt)
         :: (approveLoopGo r mx (attempt + 1) fuel).2) := by
  conv_lhs => unfold approveLoopGo
  rw [h]
  dsimp only
  rw [if_pos hlt]

theorem approveLoopGo_count (responses : Nat → ApiResp) (mx : Nat) :
    ∀ fuel attempt, approveCallCount (approveLoopGo responses mx attempt fuel).2 ≤ fuel := by
  intro fuel
  induction fuel with
  | zero =>
      intro attempt
      simp [approveLoopGo, approveCallCount]
  | succ n ih =>
      intro attempt
      unfold approveLoopGo
      cases responses attempt with
      | ok => simp [approveCallCount, List.countP_cons, isApproveCall]
      | rateLimited hint =>
          dsimp only
          by_cases h : attempt < mx - 1
          · rw [if_pos h]
            have := ih (attempt + 1)
            simp [approveCallCount, List.countP_cons, isApproveCall] at this ⊢
            omega
          · rw [if_neg h]
            simp [approveCallCount, List.countP_cons, isApproveCall]
      | otherError => simp [approveCallCount, List.countP_cons, isApproveCall]

theorem approveCallCount_append (l1 l2 : List ExtCall) :
    approveCallCount (l1 ++ l2) = approveCallCount l1 + approveCallCount l2 := by
  simp [approveCallCount, List.countP_append]

theorem totalSleepTenths_append (l1 l2 : List ExtCall) :
    totalSleepTenths (l1 ++ l2) = totalSleepTenths l1 + totalSleepTenths l2 := by
  simp [totalSleepTenths]

theorem fallback_no_approve (username : Option String) (f1 f2 : Bool)
    (il : String) : approveCallCount (fallbackCalls username f1 f2 il).2 = 0 := by
  unfold fallbackCalls
  rcases f1 with _ | _ <;> rcases username with _ | u <;> rcases f2 with _ | _ <;>
    simp [approveCallCount, isApproveCall]

theorem gateway_at_most_three_attempts (rs : Nat → ApiResp) (u : Option String)
    (mg mi f1 f2 : Bool) (il : String) :
    approveCallCount (approveChatJoinRequest rs u mg mi f1 f2 il).calls ≤ 3 := by
  have hloop := approveLoopGo_count rs 3 3 0
  have hfb := fallback_no_approve u f1 f2 il
  have hpre : approveCallCount [ExtCall.sleep 50, ExtCall.getChat] = 0 := by decide
  have hpost : approveCallCount [ExtCall.sleep 50, ExtCall.createInvite false none] = 0 := by
    decide
  unfold approveChatJoinRequest
  by_cases hmg : mg = false
  · rw [if_pos hmg]
    dsimp only
    rw [approveCallCount_append, hpre, hfb]
    omega
  · rw [if_neg hmg]
    by_cases hl : (approveLoopGo rs 3 0 3).1 = true
    · rw [if_pos hl]
      rcases u with _ | nm
      · by_cases hmi : mi = true
        · rw [if_pos hmi]
          dsimp only
          rw [approveCallCount_append, approveCallCount_append, hpre, hpost]
          omega
        · rw [if_neg hmi]
          dsimp only
          rw [approveCallCount_append, approveCallCount_append, approveCallCount_append,
              hpre, hpost, hfb]
          omega
      · dsimp only
        rw [approveCallCount_append, hpre]
        omega
    · rw [if_neg hl]
      dsimp only
      rw [approveCallCount_append, approveCallCount_append, hpre, hfb]
      omega

/-- C7: with the main get_chat healthy, a run that is rate limited with a
20-second hint on the first two attempts and accepted on the third ends with
success, makes exactly 3 approval attempts, and sleeps at least 50 seconds
across its calls (the two 20-second hints plus the two 5-second margins) on
top of the initial delay; in general the gateway never makes more than 3
approval attempts, and a hinted backoff always sleeps the hint plus the
5-second margin. -/
theorem gateway_retry_backoff (responses : Nat → ApiResp)
    (h0 : responses 0 = .rateLimited (some 20))
    (h1 : responses 1 = .rateLimited (some 20))
    (h2 : responses 2 = .ok)
    (username : Option String) (mi f1 f2 : Bool) (il : String) :
    ((approveChatJoinRequest responses username true mi f1 f2 il).result.success = true)
    ∧ totalSleepTenths (approveChatJoinRequest responses username true mi f1 f2 il).calls
        ≥ 400 + 100
    ∧ approveCallCount (approveChatJoinRequest responses username true mi f1 f2 il).calls = 3
    ∧ (∀ rs u mg mi2 g1 g2 il2,
         approveCallCount (approveChatJoinRequest rs u mg mi2 g1 g2 il2).calls ≤ 3)
    ∧ (∀ ra att, retrySleepTenths (some ra) att = 10 * ra + 50) := by
  have t2 : approveLoopGo responses 3 2 1 = (true, [.approveCall 2]) :=
    approveLoopGo_ok responses 3 2 0 h2
  have t1 : approveLoopGo responses 3 1 2 =
      (true, [.approveCall 1, .sleep 250, .approveCall 2]) := by
    rw [approveLoopGo_rl_retry responses 3 1 1 (some 20) h1 (by omega), t2]
    decide
  have hloop : approveLoopGo responses 3 0 3 =
      (true, [.approveCall 0, .sleep 250, .approveCall 1, .sleep 250, .approveCall 2]) := by
    rw [approveLoopGo_rl_retry responses 3 0 2 (some 20) h0 (by omega), t1]
    decide
  have hfbs : ∀ u2, totalSleepTenths (fallbackCalls u2 f1 f2 il).2 ≥ 0 := by
    intro u2
    omega
  refine ⟨?_, ?_, ?_, fun rs u mg mi2 g1 g2 il2 =>
      gateway_at_most_three_attempts rs u mg mi2 g1 g2 il2,
      fun ra att => by simp [retrySleepTenths]; ring⟩
  · unfold approveChatJoinRequest
    rw [if_neg (by simp), hloop]
    rw [if_pos rfl]
    rcases username with _ | nm
    · by_cases hmi : mi = true
      · rw [if_pos hmi]
      · rw [if_neg hmi]
    · rfl
  · unfold approveChatJoinRequest
    rw [if_neg (by simp), hloop]
    rw [if_pos rfl]
    rcases username with _ | nm
    · by_cases hmi : mi = true
      · rw [if_pos hmi]
        dsimp only
        rw [totalSleepTenths_append, totalSleepTenths_append]
        have : totalSleepTenths [ExtCall.sleep 50, ExtCall.getChat] = 50 := by decide
        rw [this]
        have : totalSleepTenths [ExtCall.approveCall 0, ExtCall.sleep 250,
            ExtCall.approveCall 1, ExtCall.sleep 250, ExtCall.approveCall 2] = 500 := by
          decide
        rw [this]
        omega
      · rw [if_neg hmi]
        dsimp only
        rw [totalSleepTenths_append, totalSleepTenths_append, totalSleepTenths_append]
        have hx : totalSleepTenths [ExtCall.sleep 50, ExtCall.getChat] = 50 := by decide
        rw [hx]
        have hy : totalSleepTenths [ExtCall.approveCall 0, ExtCall.sleep 250,
            ExtCall.approveCall 1, ExtCall.sleep 250, ExtCall.approveCall 2] = 500 := by
          decide
        rw [hy]
        omega
    · dsimp only
      rw [totalSleepTenths_append]
      have hx : totalSleepTenths [ExtCall.sleep 50, ExtCall.getChat] = 50 := by decide
      rw [hx]
      have hy : totalSleepTenths [ExtCall.approveCall 0, ExtCall.sleep 250,
          ExtCall.approveCall 1, ExtCall.sleep 250, ExtCall.approveCall 2] = 500 := by
        decide
      rw [hy]
      omega
  · unfold approveChatJoinRequest
    rw [if_neg (by simp), hloop]
    rw [if_pos rfl]
    have hx : approveCallCount [ExtCall.sleep 50, ExtCall.getChat] = 0 := by decide
    have hy : approveCallCount [ExtCall.approveCall 0, ExtCall.sleep 250,
        ExtCall.approveCall 1, ExtCall.sleep 250, ExtCall.approveCall 2] = 3 := by decide
    have hz : approveCallCount [ExtCall.sleep 50, ExtCall.createInvite false none] = 0 := by
      decide
    have hfb := fallback_no_approve none f1 f2 il
    rcases username with _ | nm
    · by_cases hmi : mi = true
      · rw [if_pos hmi]
        dsimp only
        rw [approveCallCount_append, approveCallCount_append, hx, hy, hz]
      · rw [if_neg hmi]
        dsimp only
        rw [approveCallCount_append, approveCallCount_append, approveCallCount_append,
            hx, hy, hz, hfb]
    · dsimp only
      rw [approveCallCount_append, hx, hy]

/-- The platform behaviour of the C7 scenario. -/
def scenarioResponses : Nat → ApiResp :=
  fun n => if n ≤ 1 then .rateLimited (some 20) else .ok

/-- Witness for C7 at the concrete scenario. -/
theorem gateway_retry_backoff_witness :
    ((approveChatJoinRequest scenarioResponses none true true true true
        "invite").result.success = true)
    ∧ totalSleepTenths (approveChatJoinRequest scenarioResponses none true true true true
        "invite").calls ≥ 400 + 100
    ∧ approveCallCount (approveChatJoinRequest scenarioResponses none true true true true
        "invite").calls = 3 := by
  have h := gateway_retry_backoff scenarioResponses rfl rfl rfl none true true true "invite"
  exact ⟨h.1, h.2.1, h.2.2.1⟩

/-!
## C8: failure fallback of the gateway
-/

/-- A platform that refuses every approval attempt. -/
def failResponses : Nat → ApiResp := fun _ => .otherError

/-- Modelled from the spec words: a single-use invite call is one made with
a member limit of one and creates_join_request disabled. -/
def specSingleUseInvite (c : ExtCall) : Prop := c = .createInvite false (some 1)

instance : DecidablePred specSingleUseInvite := by
  intro c
  unfold specSingleUseInvite
  infer_instance

/-- C8 counterexample: on a failed approval for a private chat the fallback
creates its invite with creates_join_request disabled but with no member
limit, so no call of the run is the single-use invite the claim requires. -/
theorem gateway_invite_not_single_use_cex :
    ((approveChatJoinRequest failResponses none true true true true
        "ilink").result.success = false)
    ∧ ExtCall.createInvite false none
        ∈ (approveChatJoinRequest failResponses none true true true true "ilink").calls
    ∧ ∀ c ∈ (approveChatJoinRequest failResponses none true true true true "ilink").calls,
        ¬ specSingleUseInvite c := by
  decide

/-- C8 amended: the gateway is a total function into the uniform
success-message-link record, and whenever it reports failure it has run the
fallback call sequence and returns the link that sequence obtained: the
canonical t.me handle link for a public chat, and for a private chat a
fresh invite created with creates_join_request disabled and no member limit
(the code passes no member_limit, so the invite is not single-use). -/
theorem gateway_failure_link_fallback (rs : Nat → ApiResp) (u : Option String)
    (mg mi f1 f2 : Bool) (il : String) :
    ((approveChatJoinRequest rs u mg mi f1 f2 il).result.success = false →
       (approveChatJoinRequest rs u mg mi f1 f2 il).result.groupLink
           = (fallbackCalls u f1 f2 il).1
       ∧ ∃ pre, (approveChatJoinRequest rs u mg mi f1 f2 il).calls
           = pre ++ (fallbackCalls u f1 f2 il).2)
    ∧ (f1 = true → u = none →
        ExtCall.createInvite false none ∈ (fallbackCalls u f1 f2 il).2)
    ∧ (∀ nm, f1 = true → u = some nm →
        (fallbackCalls u f1 f2 il).1 = some (tMeLink nm))
    ∧ (f1 = true → u = none → f2 = true →
        (fallbackCalls u f1 f2 il).1 = some il) := by
  refine ⟨?_, ?_, ?_, ?_⟩
  · unfold approveChatJoinRequest
    by_cases hmg : mg = false
    · rw [if_pos hmg]
      intro _
      exact ⟨rfl, ⟨[ExtCall.sleep 50, ExtCall.getChat], rfl⟩⟩
    · rw [if_neg hmg]
      by_cases hl : (approveLoopGo rs 3 0 3).1 = true
      · rw [if_pos hl]
        rcases u with _ | nm
        · by_cases hmi : mi = true
          · rw [if_pos hmi]
            intro hfail
            exact absurd hfail (by simp)
          · rw [if_neg hmi]
            intro hfail
            exact absurd hfail (by simp)
        · intro hfail
          exact absurd hfail (by simp)
      · rw [if_neg hl]
        intro _
        exact ⟨rfl, ⟨[ExtCall.sleep 50, ExtCall.getChat] ++ (approveLoopGo rs 3 0 3).2, rfl⟩⟩
  · intro h1 hu
    subst h1
    subst hu
    rcases f2 with _ | _ <;> simp [fallbackCalls]
  · intro nm h1 hu
    subst h1
    subst hu
    simp [fallbackCalls]
  · intro h1 hu h2
    subst h1
    subst hu
    subst h2
    simp [fallbackCalls]

/-- Witness for the amended C8: a concrete failed run returns the fallback
invite link of the private chat. -/
theorem gateway_failure_link_fallback_witness :
    ((approveChatJoinRequest failResponses none true true true true
        "ilink").result.groupLink = (fallbackCalls none true true "ilink").1
      ∧ ∃ pre, (approveChatJoinRequest failResponses none true true true true
          "ilink").calls = pre ++ (fallbackCalls none true true "ilink").2)
    ∧ ExtCall.createInvite false none ∈ (fallbackCalls none true true "ilink").2
    ∧ (fallbackCalls none true true "ilink").1 = some "ilink" := by
  have h := gateway_failure_link_fallback failResponses none true true true true "ilink"
  exact ⟨h.1 (by decide), h.2.1 rfl rfl, h.2.2.2 rfl rfl rfl⟩

end AprilBot
